import Mathlib

/-!
Verification of the TILT risk-scoring engine (`backend/risk_calculator.py`)
and the pure cores of the OSINT service (`backend/osint_service.py`).

Python floats are modelled by exact rationals (ℚ); Python's `round`
(round-half-to-even on the exact value) is modelled by `pyRound`.
Python dicts `Dict[int, int]` / `Dict[int, Optional[int]]` are modelled by
association lists with a first-match lookup; `None` values are `Option`.
-/

/-- Python's `round` on an exact rational value: round half to even. -/
def pyRound (q : ℚ) : ℤ :=
  if q - ⌊q⌋ < 1/2 then ⌊q⌋
  else if 1/2 < q - ⌊q⌋ then ⌊q⌋ + 1
  else if ⌊q⌋ % 2 = 0 then ⌊q⌋ else ⌊q⌋ + 1

/-! ## Data model -/

/-- A standard-track question: `{id, weight}` where weight is one of
"Critical", "High", or anything else / absent. -/
structure Question where
  id : Nat
  weight : Option String
  deriving Repr, DecidableEq

/-- A cloud-track criterion: `{id, points, criticality}`. -/
structure Criterion where
  id : Nat
  points : ℚ
  criticality : Option String
  deriving Repr, DecidableEq

/-- The `osint_results` structure consumed by the scoring engine. -/
structure Osint where
  ransomware : Option Bool
  ssl : Option String
  dmarc : Option Bool
  deriving Repr, DecidableEq

/-- Standard-track answers `Dict[int, Optional[int]]`: an association list;
lookup returns `none` for an absent key, `some none` for a null value. -/
def lookupAnswer (answers : List (Nat × Option ℤ)) (qid : Nat) : Option (Option ℤ) :=
  (answers.find? (fun p => p.1 == qid)).map Prod.snd

/-- Cloud-track scores `Dict[int, int]`: `scores.get(cid)` without default. -/
def scoreGet (scores : List (Nat × ℤ)) (cid : Nat) : Option ℤ :=
  (scores.find? (fun p => p.1 == cid)).map Prod.snd

/-! ## Standard-track vulnerability (`calc_vulnerability`, lines 7-50) -/

/-- `normalized = (6 - answer_val) / 5` (line 26). -/
def normalized (a : ℤ) : ℚ := (6 - (a : ℚ)) / 5

/-- `weight = 3 if q.get('weight') == 'Critical' else (2 if ... == 'High' else 1)`
(line 29). -/
def questionWeight (q : Question) : ℚ :=
  if q.weight = some "Critical" then 3 else if q.weight = some "High" then 2 else 1

/-- `weighted_score` accumulated over the loop of lines 22-32. -/
def weightedScore (answers : List (Nat × Option ℤ)) (questions : List Question) : ℚ :=
  (questions.map (fun q =>
    match lookupAnswer answers q.id with
    | some (some a) => normalized a * questionWeight q
    | _ => 0)).sum

/-- `total_weight` accumulated over the loop of lines 22-32. -/
def totalWeight (answers : List (Nat × Option ℤ)) (questions : List Question) : ℚ :=
  (questions.map (fun q =>
    match lookupAnswer answers q.id with
    | some (some _) => questionWeight q
    | _ => 0)).sum

/-- The OSINT floor adjustment on the (float) vulnerability, lines 42-48:
`ssl in ('F','Expired')` floors at 80, `dmarc is False` floors at 60. -/
def applyFloorsQ (osint : Option Osint) (v : ℚ) : ℚ :=
  match osint with
  | none => v
  | some o =>
    if o.dmarc = some false then
      max (if o.ssl = some "F" ∨ o.ssl = some "Expired" then max v 80 else v) 60
    else
      if o.ssl = some "F" ∨ o.ssl = some "Expired" then max v 80 else v

/-- `calc_vulnerability(answers, questions, osint_results)`, lines 7-50. -/
def calc_vulnerability (answers : List (Nat × Option ℤ)) (questions : List Question)
    (osint : Option Osint) : ℤ :=
  if answers = [] then 100
  else
    if totalWeight answers questions = 0 then 100
    else pyRound (applyFloorsQ osint
      (weightedScore answers questions / totalWeight answers questions * 100))

/-! ## Cloud-track scorer (`calc_cloud_vulnerability`, lines 52-113) -/

/-- `total_score` accumulated over the loop of lines 59-64:
`(scores.get(c['id'], 0) / 5) * c.get('points', 0)` summed over criteria. -/
def cloudTotalScore (scores : List (Nat × ℤ)) (criteria : List Criterion) : ℚ :=
  (criteria.map (fun c => (((scoreGet scores c.id).getD 0 : ℤ) : ℚ) / 5 * c.points)).sum

/-- `missed_critical` (lines 69-73): some criterion with criticality
"Critical" has score 0 or is unanswered. -/
def cloudMissedCritical (scores : List (Nat × ℤ)) (criteria : List Criterion) : Bool :=
  criteria.any (fun c => decide (c.criticality = some "Critical" ∧
    (scoreGet scores c.id = some 0 ∨ scoreGet scores c.id = none)))

/-- `vuln = round((1 - (total_score / max_score)) * 100) if max_score > 0 else 100`
(line 76), with `max_score = 55`. -/
def cloudBaseVuln (scores : List (Nat × ℤ)) (criteria : List Criterion) : ℤ :=
  if (55 : ℚ) > 0 then pyRound ((1 - cloudTotalScore scores criteria / 55) * 100)
  else 100

/-- The OSINT floor adjustment of lines 80-86, applied to the already
rounded integer vulnerability of the cloud track. -/
def applyFloorsZ (osint : Option Osint) (v : ℤ) : ℤ :=
  match osint with
  | none => v
  | some o =>
    if o.dmarc = some false then
      max (if o.ssl = some "F" ∨ o.ssl = some "Expired" then max v 80 else v) 60
    else
      if o.ssl = some "F" ∨ o.ssl = some "Expired" then max v 80 else v

/-- The result dict of `calc_cloud_vulnerability` (lines 106-113). -/
structure CloudResult where
  score : ℤ
  maxScore : ℤ
  vulnerability : ℤ
  status : String
  statusColor : String
  missedCritical : Bool
  deriving Repr, DecidableEq

/-- `calc_cloud_vulnerability(scores, criteria, osint_results)`, lines 52-113. -/
def calc_cloud_vulnerability (scores : List (Nat × ℤ)) (criteria : List Criterion)
    (osint : Option Osint) : CloudResult :=
  if cloudMissedCritical scores criteria = true ∨ cloudTotalScore scores criteria < 15 then
    { score := pyRound (cloudTotalScore scores criteria), maxScore := 55,
      vulnerability := applyFloorsZ osint (cloudBaseVuln scores criteria),
      status := "REJECT (Critical Risk)", statusColor := "red",
      missedCritical := cloudMissedCritical scores criteria }
  else if cloudTotalScore scores criteria < 30 then
    { score := pyRound (cloudTotalScore scores criteria), maxScore := 55,
      vulnerability := applyFloorsZ osint (cloudBaseVuln scores criteria),
      status := "Restricted (Deficient)", statusColor := "amber",
      missedCritical := cloudMissedCritical scores criteria }
  else if cloudTotalScore scores criteria < 45 then
    { score := pyRound (cloudTotalScore scores criteria), maxScore := 55,
      vulnerability := applyFloorsZ osint (cloudBaseVuln scores criteria),
      status := "Standard Approval", statusColor := "yellow",
      missedCritical := cloudMissedCritical scores criteria }
  else
    { score := pyRound (cloudTotalScore scores criteria), maxScore := 55,
      vulnerability := applyFloorsZ osint (cloudBaseVuln scores criteria),
      status := "Elite (Pre-approved)", statusColor := "green",
      missedCritical := cloudMissedCritical scores criteria }

/-! ## Standard-track impact/likelihood (`calc_impact_likelihood`, lines 115-142) -/

/-- `calc_impact_likelihood(answers, questions, osint_results)`, lines 115-142.
The `questions` parameter is unused by the implementation. -/
def calc_impact_likelihood (answers : List (Nat × Option ℤ)) (questions : List Question)
    (osint : Option Osint) : ℚ × ℚ :=
  let base : ℚ × ℚ :=
    if answers = [] then (3, 3)
    else
      let vals := answers.filterMap Prod.snd
      if vals = [] then (3, 3)
      else
        let avg : ℚ := (vals.map (fun v => (v : ℚ))).sum / vals.length
        (max 1 (min 5 (6 - avg / (6/5))), max 1 (min 5 (6 - avg / (6/5))))
  match osint with
  | some o => if o.ransomware = some true then (base.1, 5) else base
  | none => base

/-! ## OSINT pure cores (`osint_service.py`) -/

/-- The result of `get_certificate_stats` (lines 150-199). -/
structure CertStats where
  valid : Bool
  daysRemaining : ℤ
  grade : String
  deriving Repr, DecidableEq

/-- `get_certificate_stats(domain)`, lines 150-199, with the network and
certificate parsing abstracted: the input is `some d` when the TLS
connection succeeded and the certificate's `notAfter` parsed to `d` whole
days remaining (`(exp_date - datetime.now()).days`), and `none` when the
connection raised or the certificate had no `notAfter` field. -/
def get_certificate_stats (daysRemaining : Option ℤ) : CertStats :=
  match daysRemaining with
  | some d =>
    { valid := decide (d > 0), daysRemaining := d,
      grade :=
        if d < 0 then "F"
        else if d < 7 then "F"
        else if d < 30 then "C"
        else if d < 60 then "B"
        else "A" }
  | none => { valid := false, daysRemaining := 0, grade := "F" }

/-- Character-wise lowercase: Python's `str.lower()` restricted to the
per-character mapping (sufficient for the ASCII tags compared here). -/
def strLower (s : String) : String := ⟨s.data.map Char.toLower⟩

/-- `haystack.startswith(needle)` of Python (line 128). -/
def strStarts (s p : String) : Bool := p.data.isPrefixOf s.data

/-- Character-list substring test, structural recursion on the haystack. -/
def subList : List Char → List Char → Bool
  | _, [] => true
  | [], _ :: _ => false
  | c :: t, n => n.isPrefixOf (c :: t) || subList t n

/-- `needle in haystack` of Python (lines 131-135). -/
def strContains (haystack needle : String) : Bool := subList haystack.data needle.data

/-- `not domain or not domain.strip()` of Python (line 115): the string is
empty or entirely whitespace. -/
def strBlank (s : String) : Bool := s.data.all Char.isWhitespace

/-- The result of `check_dmarc` (lines 112-148). -/
structure DmarcResult where
  has_dmarc : Bool
  policy : Option String
  domain : String
  deriving Repr, DecidableEq

/-- Policy extraction of lines 129-136, applied to a TXT record string. -/
def dmarcPolicy (txt : String) : String :=
  if strContains (strLower txt) "p=reject" then "reject"
  else if strContains (strLower txt) "p=quarantine" then "quarantine"
  else if strContains (strLower txt) "p=none" then "none"
  else "none"

/-- `check_dmarc(domain)`, lines 112-148, with the DNS resolution
abstracted: `records = some rs` when resolving `_dmarc.<domain>` TXT
succeeded with the records' joined strings `rs`, and `none` when DNS
resolution raised. The in-memory cache is omitted (pure model). -/
def check_dmarc (domain : String) (records : Option (List String)) : DmarcResult :=
  if strBlank domain then { has_dmarc := false, policy := none, domain := domain }
  else
    match records with
    | none => { has_dmarc := false, policy := none, domain := domain }
    | some rs =>
      match rs.find? (fun txt => strStarts (strLower txt) "v=dmarc1") with
      | some txt => { has_dmarc := true, policy := some (dmarcPolicy txt), domain := domain }
      | none => { has_dmarc := false, policy := none, domain := domain }

/-! ## Theorems -/

theorem pyRound_intCast (n : ℤ) : pyRound (n : ℚ) = n := by
  unfold pyRound
  norm_num

theorem floor_le_pyRound (q : ℚ) : ⌊q⌋ ≤ pyRound q := by
  unfold pyRound
  split_ifs <;> omega

theorem pyRound_le_floor_add_one (q : ℚ) : pyRound q ≤ ⌊q⌋ + 1 := by
  unfold pyRound
  split_ifs <;> omega

theorem int_le_pyRound {n : ℤ} {q : ℚ} (h : (n : ℚ) ≤ q) : n ≤ pyRound q := by
  have h1 : n ≤ ⌊q⌋ := Int.le_floor.mpr h
  have h2 := floor_le_pyRound q
  omega

theorem pyRound_le_int {n : ℤ} {q : ℚ} (h : q ≤ (n : ℚ)) : pyRound q ≤ n := by
  have h1 : ⌊q⌋ ≤ n := by
    have := Int.floor_le_floor h
    simpa using this
  by_cases hlt : q - ⌊q⌋ < 1/2
  · unfold pyRound
    simp only [hlt, if_true]
    omega
  · have hne : ⌊q⌋ ≠ n := by
      intro he
      have hfl : (⌊q⌋ : ℚ) ≤ q := Int.floor_le q
      have : q - ⌊q⌋ ≤ 0 := by
        rw [he]
        linarith
      linarith
    have h2 := pyRound_le_floor_add_one q
    omega

theorem pyRound_mono {q r : ℚ} (h : q ≤ r) : pyRound q ≤ pyRound r := by
  have hf : ⌊q⌋ ≤ ⌊r⌋ := Int.floor_le_floor h
  by_cases heq : ⌊q⌋ = ⌊r⌋
  · unfold pyRound
    have hfr : q - ⌊q⌋ ≤ r - ⌊r⌋ := by
      rw [← heq]
      linarith
    split_ifs <;> first | omega | linarith
  · have h1 := pyRound_le_floor_add_one q
    have h2 := floor_le_pyRound r
    omega

theorem pyRound_max_intCast (q : ℚ) (n : ℤ) :
    pyRound (max q (n : ℚ)) = max (pyRound q) n := by
  rcases le_total q (n : ℚ) with h | h
  · rw [max_eq_right h, pyRound_intCast, max_eq_right (pyRound_le_int h)]
  · rw [max_eq_left h, max_eq_left (int_le_pyRound h)]

theorem calc_vuln_split (a : List (Nat × Option ℤ)) (qs : List Question) :
    (∀ o, calc_vulnerability a qs o = 100) ∨
    ∃ v : ℚ, ∀ o, calc_vulnerability a qs o = pyRound (applyFloorsQ o v) := by
  by_cases h1 : a = []
  · exact Or.inl fun o => by simp [calc_vulnerability, h1]
  · by_cases h2 : totalWeight a qs = 0
    · exact Or.inl fun o => by simp [calc_vulnerability, h1, h2]
    · exact Or.inr ⟨weightedScore a qs / totalWeight a qs * 100, fun o => by
        simp [calc_vulnerability, h1, h2]⟩

theorem applyFloorsQ_none (v : ℚ) : applyFloorsQ none v = v := rfl

theorem applyFloorsQ_some (o : Osint) (v : ℚ) :
    applyFloorsQ (some o) v =
      if o.dmarc = some false then
        max (if o.ssl = some "F" ∨ o.ssl = some "Expired" then max v 80 else v) 60
      else
        if o.ssl = some "F" ∨ o.ssl = some "Expired" then max v 80 else v := rfl

theorem applyFloorsQ_ssl_ge (o : Osint) (v : ℚ)
    (h : o.ssl = some "F" ∨ o.ssl = some "Expired") : 80 ≤ applyFloorsQ (some o) v := by
  rw [applyFloorsQ_some]
  split_ifs with h1
  · exact le_max_of_le_left (le_max_right v 80)
  · exact le_max_right v 80

theorem applyFloorsQ_dmarc_ge (o : Osint) (v : ℚ)
    (h : o.dmarc = some false) : 60 ≤ applyFloorsQ (some o) v := by
  rw [applyFloorsQ_some]
  split_ifs with h1
  · exact le_max_right _ 60
  · exact le_max_right _ 60

theorem applyFloorsQ_drop_ssl (o : Osint) (v : ℚ) :
    applyFloorsQ (some { o with ssl := none }) v ≤ applyFloorsQ (some o) v := by
  unfold applyFloorsQ
  simp only
  split_ifs <;> first
  | exact le_refl _
  | exact le_max_left v 80
  | exact max_le_max (le_max_left v 80) (le_refl 60)
  | simp_all

theorem applyFloorsQ_drop_dmarc (o : Osint) (v : ℚ) :
    applyFloorsQ (some { o with dmarc := none }) v ≤ applyFloorsQ (some o) v := by
  unfold applyFloorsQ
  simp only
  split_ifs <;> first
  | exact le_refl _
  | exact le_max_left _ 60
  | simp_all

theorem applyFloorsQ_both (o : Osint) (v : ℚ)
    (hs : o.ssl = some "F" ∨ o.ssl = some "Expired") (hd : o.dmarc = some false) :
    applyFloorsQ (some o) v = max v 80 := by
  rw [applyFloorsQ_some, if_pos hd, if_pos hs, max_eq_left (le_trans (by norm_num) (le_max_right v 80))]

theorem applyFloorsZ_none (v : ℤ) : applyFloorsZ none v = v := rfl

theorem applyFloorsZ_some (o : Osint) (v : ℤ) :
    applyFloorsZ (some o) v =
      if o.dmarc = some false then
        max (if o.ssl = some "F" ∨ o.ssl = some "Expired" then max v 80 else v) 60
      else
        if o.ssl = some "F" ∨ o.ssl = some "Expired" then max v 80 else v := rfl

theorem applyFloorsZ_ssl_ge (o : Osint) (v : ℤ)
    (h : o.ssl = some "F" ∨ o.ssl = some "Expired") : 80 ≤ applyFloorsZ (some o) v := by
  rw [applyFloorsZ_some]
  split_ifs with h1
  · exact le_max_of_le_left (le_max_right v 80)
  · exact le_max_right v 80

theorem applyFloorsZ_dmarc_ge (o : Osint) (v : ℤ)
    (h : o.dmarc = some false) : 60 ≤ applyFloorsZ (some o) v := by
  rw [applyFloorsZ_some]
  split_ifs with h1
  · exact le_max_right _ 60
  · exact le_max_right _ 60

theorem applyFloorsZ_drop_ssl (o : Osint) (v : ℤ) :
    applyFloorsZ (some { o with ssl := none }) v ≤ applyFloorsZ (some o) v := by
  unfold applyFloorsZ
  simp only
  split_ifs <;> first
  | exact le_refl _
  | exact le_max_left v 80
  | exact max_le_max (le_max_left v 80) (le_refl 60)
  | simp_all

theorem applyFloorsZ_drop_dmarc (o : Osint) (v : ℤ) :
    applyFloorsZ (some { o with dmarc := none }) v ≤ applyFloorsZ (some o) v := by
  unfold applyFloorsZ
  simp only
  split_ifs <;> first
  | exact le_refl _
  | exact le_max_left _ 60
  | simp_all

theorem applyFloorsZ_both (o : Osint) (v : ℤ)
    (hs : o.ssl = some "F" ∨ o.ssl = some "Expired") (hd : o.dmarc = some false) :
    applyFloorsZ (some o) v = max v 80 := by
  rw [applyFloorsZ_some, if_pos hd, if_pos hs, max_eq_left (le_trans (by norm_num) (le_max_right v 80))]

theorem cloud_vulnerability_eq (s : List (Nat × ℤ)) (c : List Criterion) (o : Option Osint) :
    (calc_cloud_vulnerability s c o).vulnerability = applyFloorsZ o (cloudBaseVuln s c) := by
  unfold calc_cloud_vulnerability
  split_ifs <;> rfl

theorem cloud_score_eq (s : List (Nat × ℤ)) (c : List Criterion) (o : Option Osint) :
    (calc_cloud_vulnerability s c o).score = pyRound (cloudTotalScore s c) := by
  unfold calc_cloud_vulnerability
  split_ifs <;> rfl

theorem cloud_missed_eq (s : List (Nat × ℤ)) (c : List Criterion) (o : Option Osint) :
    (calc_cloud_vulnerability s c o).missedCritical = cloudMissedCritical s c := by
  unfold calc_cloud_vulnerability
  split_ifs <;> rfl

/-- Claim C5: `calc_vulnerability` returns exactly 100 whenever the answers
map is empty (for every questions list and every osint_results), and also
whenever no question in the questions list matches an answered id with a
non-null value (`total_weight == 0`). -/
theorem calc_vulnerability_no_data (a : List (Nat × Option ℤ)) (qs : List Question)
    (o : Option Osint) :
    (a = [] → calc_vulnerability a qs o = 100) ∧
    ((∀ q ∈ qs, ∀ v : ℤ, lookupAnswer a q.id ≠ some (some v)) →
      calc_vulnerability a qs o = 100) := by
  constructor
  · intro h
    simp [calc_vulnerability, h]
  · intro h
    have htw : totalWeight a qs = 0 := by
      unfold totalWeight
      apply List.sum_eq_zero
      intro x hx
      simp only [List.mem_map] at hx
      obtain ⟨q, hq, rfl⟩ := hx
      cases hl : lookupAnswer a q.id with
      | none => simp
      | some ov =>
        cases ov with
        | none => simp
        | some v => exact absurd hl (h q hq v)
    by_cases h1 : a = []
    · simp [calc_vulnerability, h1]
    · simp [calc_vulnerability, h1, htw]

/-- Witness for C5 at concrete inputs: an empty answers map, and a
non-empty answers map whose id matches no question. -/
theorem calc_vulnerability_no_data_witness :
    calc_vulnerability [] [⟨1, some "High"⟩] none = 100 ∧
    calc_vulnerability [(1, some 3)] [⟨2, none⟩] (some ⟨none, some "F", none⟩) = 100 := by
  constructor
  · exact (calc_vulnerability_no_data [] [⟨1, some "High"⟩] none).1 rfl
  · exact (calc_vulnerability_no_data [(1, some 3)] [⟨2, none⟩]
      (some ⟨none, some "F", none⟩)).2 (by
        intro q hq v
        simp only [List.mem_singleton] at hq
        subst hq
        simp [lookupAnswer])

/-- Claim C2: the OSINT floor adjustment is monotone and never lowers the
score, in both the standard track (`calc_vulnerability`) and the cloud
track (`calc_cloud_vulnerability`'s vulnerability field): an ssl grade of
"F" or "Expired" floors the result at 80 and never below the value without
that signal; `dmarc = False` floors at 60 likewise; with both signals the
result is exactly the max of the base (no-OSINT) score and 80. -/
theorem osint_floor_monotone (a : List (Nat × Option ℤ)) (qs : List Question)
    (s : List (Nat × ℤ)) (c : List Criterion) (o : Osint) :
    ((o.ssl = some "F" ∨ o.ssl = some "Expired") →
      80 ≤ calc_vulnerability a qs (some o) ∧
      calc_vulnerability a qs (some { o with ssl := none }) ≤
        calc_vulnerability a qs (some o) ∧
      80 ≤ (calc_cloud_vulnerability s c (some o)).vulnerability ∧
      (calc_cloud_vulnerability s c (some { o with ssl := none })).vulnerability ≤
        (calc_cloud_vulnerability s c (some o)).vulnerability) ∧
    (o.dmarc = some false →
      60 ≤ calc_vulnerability a qs (some o) ∧
      calc_vulnerability a qs (some { o with dmarc := none }) ≤
        calc_vulnerability a qs (some o) ∧
      60 ≤ (calc_cloud_vulnerability s c (some o)).vulnerability ∧
      (calc_cloud_vulnerability s c (some { o with dmarc := none })).vulnerability ≤
        (calc_cloud_vulnerability s c (some o)).vulnerability) ∧
    ((o.ssl = some "F" ∨ o.ssl = some "Expired") → o.dmarc = some false →
      calc_vulnerability a qs (some o) = max (calc_vulnerability a qs none) 80 ∧
      (calc_cloud_vulnerability s c (some o)).vulnerability =
        max (calc_cloud_vulnerability s c none).vulnerability 80) := by
  have hcast80 : ((80 : ℤ) : ℚ) = 80 := by norm_num
  have hcast60 : ((60 : ℤ) : ℚ) = 60 := by norm_num
  simp only [cloud_vulnerability_eq]
  rcases calc_vuln_split a qs with hall | ⟨v, hv⟩
  · simp only [hall]
    refine ⟨fun hs => ⟨by norm_num, le_refl _, ?_, ?_⟩,
      fun hd => ⟨by norm_num, le_refl _, ?_, ?_⟩,
      fun hs hd => ⟨by simp, ?_⟩⟩
    · exact applyFloorsZ_ssl_ge o _ hs
    · exact applyFloorsZ_drop_ssl o _
    · exact applyFloorsZ_dmarc_ge o _ hd
    · exact applyFloorsZ_drop_dmarc o _
    · rw [applyFloorsZ_both o _ hs hd, applyFloorsZ_none]
  · simp only [hv]
    refine ⟨fun hs => ⟨?_, ?_, ?_, ?_⟩, fun hd => ⟨?_, ?_, ?_, ?_⟩,
      fun hs hd => ⟨?_, ?_⟩⟩
    · exact int_le_pyRound (hcast80 ▸ applyFloorsQ_ssl_ge o v hs)
    · exact pyRound_mono (applyFloorsQ_drop_ssl o v)
    · exact applyFloorsZ_ssl_ge o _ hs
    · exact applyFloorsZ_drop_ssl o _
    · exact int_le_pyRound (hcast60 ▸ applyFloorsQ_dmarc_ge o v hd)
    · exact pyRound_mono (applyFloorsQ_drop_dmarc o v)
    · exact applyFloorsZ_dmarc_ge o _ hd
    · exact applyFloorsZ_drop_dmarc o _
    · rw [applyFloorsQ_both o v hs hd, applyFloorsQ_none, ← hcast80,
        pyRound_max_intCast]
    · rw [applyFloorsZ_both o _ hs hd, applyFloorsZ_none]

/-- Witness for C2 at a concrete input: one answered Critical question at
maturity 3 (base 60), ssl "F" and dmarc false floor the standard result to
80; one criterion at 4/5 of 10 points (base vulnerability 85) stays 85 in
the cloud track. -/
theorem osint_floor_monotone_witness :
    80 ≤ calc_vulnerability [(1, some 3)] [⟨1, some "Critical"⟩]
      (some ⟨none, some "F", some false⟩) ∧
    calc_vulnerability [(1, some 3)] [⟨1, some "Critical"⟩]
        (some ⟨none, some "F", some false⟩) =
      max (calc_vulnerability [(1, some 3)] [⟨1, some "Critical"⟩] none) 80 ∧
    (calc_cloud_vulnerability [(1, 4)] [⟨1, 10, none⟩]
        (some ⟨none, some "F", some false⟩)).vulnerability =
      max (calc_cloud_vulnerability [(1, 4)] [⟨1, 10, none⟩] none).vulnerability 80 := by
  refine ⟨?_, ?_, ?_⟩
  · exact ((osint_floor_monotone [(1, some 3)] [⟨1, some "Critical"⟩] [(1, 4)]
      [⟨1, 10, none⟩] ⟨none, some "F", some false⟩).1 (Or.inl rfl)).1
  · exact ((osint_floor_monotone [(1, some 3)] [⟨1, some "Critical"⟩] [(1, 4)]
      [⟨1, 10, none⟩] ⟨none, some "F", some false⟩).2.2 (Or.inl rfl) rfl).1
  · exact ((osint_floor_monotone [(1, some 3)] [⟨1, some "Critical"⟩] [(1, 4)]
      [⟨1, 10, none⟩] ⟨none, some "F", some false⟩).2.2 (Or.inl rfl) rfl).2

/-- Claim C6: absent the ransomware override, `calc_impact_likelihood`
returns the defaults (3.0, 3.0) when the answers map is empty; otherwise,
when non-null answer values exist, it returns impact = likelihood =
clamp(6 - m/1.2, 1, 5) where m is the unweighted arithmetic mean of all
non-null answer values, regardless of which question they belong to — the
identical formula for both outputs. -/
theorem calc_impact_likelihood_formula (a : List (Nat × Option ℤ)) (qs : List Question)
    (o : Option Osint) (hr : ∀ x, o = some x → x.ransomware ≠ some true) :
    (a = [] → calc_impact_likelihood a qs o = (3, 3)) ∧
    (a.filterMap Prod.snd ≠ [] →
      calc_impact_likelihood a qs o =
        (max 1 (min 5 (6 - ((a.filterMap Prod.snd).map (fun v => (v : ℚ))).sum /
            (a.filterMap Prod.snd).length / (6/5))),
         max 1 (min 5 (6 - ((a.filterMap Prod.snd).map (fun v => (v : ℚ))).sum /
            (a.filterMap Prod.snd).length / (6/5))))) := by
  constructor
  · intro h
    subst h
    cases o with
    | none => rfl
    | some x =>
      have hx := hr x rfl
      simp [calc_impact_likelihood, hx]
  · intro hv
    have ha : a ≠ [] := by
      intro h
      subst h
      simp at hv
    cases o with
    | none => simp [calc_impact_likelihood, ha, hv]
    | some x =>
      have hx := hr x rfl
      simp [calc_impact_likelihood, ha, hv, hx]

/-- Witness for C6 at concrete inputs: empty answers give (3, 3); two
answers at maturity 5 give mean 5 and clamp(6 - 5/1.2, 1, 5) = 11/6 for
both outputs. -/
theorem calc_impact_likelihood_formula_witness :
    calc_impact_likelihood [] [] none = (3, 3) ∧
    calc_impact_likelihood [(1, some 5), (2, some 5)] [] none = (11/6, 11/6) := by
  constructor
  · exact (calc_impact_likelihood_formula [] [] none (by simp)).1 rfl
  · have h := (calc_impact_likelihood_formula [(1, some 5), (2, some 5)] [] none
      (by simp)).2 (by decide)
    rw [h]
    norm_num [List.filterMap_cons]

/-- Claim C7: if `osint_results.ransomware` is True then
`calc_impact_likelihood` returns likelihood exactly 5 while impact equals
the value it would have with no osint_results at all; and any two
osint_results differing only in their ssl and/or dmarc fields (that is,
agreeing on ransomware) give identical (impact, likelihood). -/
theorem impact_likelihood_osint_independence (a : List (Nat × Option ℤ))
    (qs : List Question) (o : Osint) :
    (o.ransomware = some true →
      (calc_impact_likelihood a qs (some o)).2 = 5 ∧
      (calc_impact_likelihood a qs (some o)).1 = (calc_impact_likelihood a qs none).1) ∧
    (∀ o' : Osint, o'.ransomware = o.ransomware →
      calc_impact_likelihood a qs (some o') = calc_impact_likelihood a qs (some o)) := by
  constructor
  · intro h
    simp [calc_impact_likelihood, h]
  · intro o' h
    simp only [calc_impact_likelihood, h]

/-- Witness for C7 at a concrete input: with ransomware flagged, likelihood
is 5 and impact matches the no-OSINT value; changing only ssl and dmarc
leaves the result unchanged. -/
theorem impact_likelihood_osint_independence_witness :
    (calc_impact_likelihood [(1, some 2)] [] (some ⟨some true, some "A", some true⟩)).2 = 5 ∧
    (calc_impact_likelihood [(1, some 2)] [] (some ⟨some true, some "A", some true⟩)).1 =
      (calc_impact_likelihood [(1, some 2)] [] none).1 ∧
    calc_impact_likelihood [(1, some 2)] [] (some ⟨some true, none, none⟩) =
      calc_impact_likelihood [(1, some 2)] [] (some ⟨some true, some "A", some true⟩) := by
  refine ⟨?_, ?_, ?_⟩
  · exact ((impact_likelihood_osint_independence [(1, some 2)] []
      ⟨some true, some "A", some true⟩).1 rfl).1
  · exact ((impact_likelihood_osint_independence [(1, some 2)] []
      ⟨some true, some "A", some true⟩).1 rfl).2
  · exact (impact_likelihood_osint_independence [(1, some 2)] []
      ⟨some true, some "A", some true⟩).2 ⟨some true, none, none⟩ rfl

/-- Claim C10: for every non-empty answers map whose values are all null,
`calc_impact_likelihood` behaves exactly as for an empty answers map: it
returns the defaults (3, 3), with the ransomware override to
likelihood = 5 still applying. -/
theorem impact_likelihood_all_null (a : List (Nat × Option ℤ)) (qs : List Question)
    (o : Option Osint) (ha : a ≠ []) (hnull : ∀ p ∈ a, p.2 = none) :
    calc_impact_likelihood a qs o = calc_impact_likelihood [] qs o ∧
    ((∀ x, o = some x → x.ransomware ≠ some true) →
      calc_impact_likelihood a qs o = (3, 3)) ∧
    (∀ x, o = some x → x.ransomware = some true →
      calc_impact_likelihood a qs o = (3, 5)) := by
  have hv : a.filterMap Prod.snd = [] := by
    rw [List.filterMap_eq_nil_iff]
    exact hnull
  refine ⟨?_, ?_, ?_⟩
  · cases o with
    | none => simp [calc_impact_likelihood, ha, hv]
    | some x => simp [calc_impact_likelihood, ha, hv]
  · intro hr
    cases o with
    | none => simp [calc_impact_likelihood, ha, hv]
    | some x =>
      have hx := hr x rfl
      simp [calc_impact_likelihood, ha, hv, hx]
  · intro x hx hransom
    subst hx
    simp [calc_impact_likelihood, ha, hv, hransom]

/-- Witness for C10 at a concrete input: two null answers behave as no
answers, and the ransomware override still forces likelihood 5. -/
theorem impact_likelihood_all_null_witness :
    calc_impact_likelihood [(1, none), (2, none)] [] none = (3, 3) ∧
    calc_impact_likelihood [(1, none), (2, none)] []
      (some ⟨some true, none, none⟩) = (3, 5) := by
  constructor
  · exact (impact_likelihood_all_null [(1, none), (2, none)] [] none (by simp)
      (by simp)).2.1 (by simp)
  · exact (impact_likelihood_all_null [(1, none), (2, none)] []
      (some ⟨some true, none, none⟩) (by simp) (by simp)).2.2
      ⟨some true, none, none⟩ rfl rfl

/-- Claim C8: `get_certificate_stats` grades the certificate solely from
the days remaining until expiry: "F" if expired or fewer than 7 days
remain, "C" if fewer than 30, "B" if fewer than 60, "A" otherwise; and on
any connection (or other) error it returns valid = false and grade "F"
rather than raising. -/
theorem get_certificate_stats_grading (d : ℤ) :
    (d < 7 → (get_certificate_stats (some d)).grade = "F") ∧
    (7 ≤ d → d < 30 → (get_certificate_stats (some d)).grade = "C") ∧
    (30 ≤ d → d < 60 → (get_certificate_stats (some d)).grade = "B") ∧
    (60 ≤ d → (get_certificate_stats (some d)).grade = "A") ∧
    (get_certificate_stats none).valid = false ∧
    (get_certificate_stats none).grade = "F" := by
  refine ⟨?_, ?_, ?_, ?_, rfl, rfl⟩ <;>
    (intros
     simp only [get_certificate_stats]
     split_ifs <;> first | rfl | omega)

/-- Witness for C8 at concrete inputs: 45 days remaining grades "B"; an
error grades "F" and is not valid. -/
theorem get_certificate_stats_grading_witness :
    (get_certificate_stats (some 45)).grade = "B" ∧
    (get_certificate_stats none).valid = false ∧
    (get_certificate_stats none).grade = "F" := by
  refine ⟨?_, ?_, ?_⟩
  · exact (get_certificate_stats_grading 45).2.2.1 (by norm_num) (by norm_num)
  · exact (get_certificate_stats_grading 0).2.2.2.2.1
  · exact (get_certificate_stats_grading 0).2.2.2.2.2

/-- Claim C9: `check_dmarc` returns has_dmarc = True exactly when a TXT
record at `_dmarc.<domain>` is present whose lowercase form starts with
"v=dmarc1", in which case the extracted p= policy is one of "none",
"quarantine", "reject", defaulting to "none" when no p= tag is present;
any DNS resolution failure yields has_dmarc = False. -/
theorem check_dmarc_spec (domain : String) (rs : List String) :
    (check_dmarc domain none).has_dmarc = false ∧
    (strBlank domain = false →
      ((check_dmarc domain (some rs)).has_dmarc = true ↔
        ∃ t ∈ rs, strStarts (strLower t) "v=dmarc1" = true) ∧
      (∀ p, (check_dmarc domain (some rs)).policy = some p →
        p = "none" ∨ p = "quarantine" ∨ p = "reject") ∧
      (∀ t, rs.find? (fun txt => strStarts (strLower txt) "v=dmarc1") = some t →
        strContains (strLower t) "p=reject" = false →
        strContains (strLower t) "p=quarantine" = false →
        strContains (strLower t) "p=none" = false →
        (check_dmarc domain (some rs)).policy = some "none")) := by
  constructor
  · unfold check_dmarc
    split_ifs <;> rfl
  · intro hb
    have hbne : ¬ strBlank domain = true := by simp [hb]
    have hsome : check_dmarc domain (some rs) =
        match rs.find? (fun txt => strStarts (strLower txt) "v=dmarc1") with
        | some txt => { has_dmarc := true, policy := some (dmarcPolicy txt), domain := domain }
        | none => { has_dmarc := false, policy := none, domain := domain } := by
      unfold check_dmarc
      rw [if_neg hbne]
    refine ⟨?_, ?_, ?_⟩
    · rw [hsome]
      cases hf : rs.find? (fun txt => strStarts (strLower txt) "v=dmarc1") with
      | none =>
        constructor
        · intro h
          simp at h
        · rintro ⟨t, ht, hp⟩
          rw [List.find?_eq_none] at hf
          exact absurd hp (by simpa using hf t ht)
      | some t =>
        constructor
        · intro _
          refine ⟨t, List.mem_of_find?_eq_some hf, ?_⟩
          have hp := List.find?_some hf
          simpa using hp
        · intro _
          rfl
    · intro p hp
      rw [hsome] at hp
      cases hf : rs.find? (fun txt => strStarts (strLower txt) "v=dmarc1") with
      | none =>
        rw [hf] at hp
        simp at hp
      | some t =>
        rw [hf] at hp
        simp only [Option.some.injEq] at hp
        subst hp
        unfold dmarcPolicy
        split_ifs <;> simp
    · intro t hf h1 h2 h3
      rw [hsome, hf]
      simp [dmarcPolicy, h1, h2, h3]

/-- Witness for C9 at concrete inputs: DNS failure gives no DMARC; a
record list containing "v=DMARC1" (no p= tag) is detected with the default
"none" policy. -/
theorem check_dmarc_spec_witness :
    (check_dmarc "example.com" none).has_dmarc = false ∧
    (check_dmarc "example.com" (some ["foo", "v=DMARC1"])).has_dmarc = true ∧
    (check_dmarc "example.com" (some ["foo", "v=DMARC1"])).policy = some "none" := by
  refine ⟨?_, ?_, ?_⟩
  · exact (check_dmarc_spec "example.com" ["foo", "v=DMARC1"]).1
  · exact ((check_dmarc_spec "example.com" ["foo", "v=DMARC1"]).2 (by decide)).1.mpr
      ⟨"v=DMARC1", by decide, by decide⟩
  · exact ((check_dmarc_spec "example.com" ["foo", "v=DMARC1"]).2 (by decide)).2.2
      "v=DMARC1" (by decide) (by decide) (by decide) (by decide)

/-- Claim C3: `calc_cloud_vulnerability` assigns status by priority rules on
`total_score` with strict comparisons: `missedCritical` (true iff some
criterion with criticality "Critical" has score 0 or is unanswered) or
`total_score < 15` gives "REJECT (Critical Risk)"/red even if
`total_score ≥ 45`; otherwise `< 30` gives "Restricted (Deficient)"/amber;
otherwise `< 45` gives "Standard Approval"/yellow; otherwise
"Elite (Pre-approved)"/green — boundary values 15, 30, 45 land in the
higher tier. -/
theorem cloud_status_priority (s : List (Nat × ℤ)) (c : List Criterion) (o : Option Osint) :
    (calc_cloud_vulnerability s c o).missedCritical = cloudMissedCritical s c ∧
    (cloudMissedCritical s c = true ↔
      ∃ cr ∈ c, cr.criticality = some "Critical" ∧
        (scoreGet s cr.id = some 0 ∨ scoreGet s cr.id = none)) ∧
    ((cloudMissedCritical s c = true ∨ cloudTotalScore s c < 15) →
      (calc_cloud_vulnerability s c o).status = "REJECT (Critical Risk)" ∧
      (calc_cloud_vulnerability s c o).statusColor = "red") ∧
    ((cloudMissedCritical s c = false ∧ 15 ≤ cloudTotalScore s c ∧
        cloudTotalScore s c < 30) →
      (calc_cloud_vulnerability s c o).status = "Restricted (Deficient)" ∧
      (calc_cloud_vulnerability s c o).statusColor = "amber") ∧
    ((cloudMissedCritical s c = false ∧ 30 ≤ cloudTotalScore s c ∧
        cloudTotalScore s c < 45) →
      (calc_cloud_vulnerability s c o).status = "Standard Approval" ∧
      (calc_cloud_vulnerability s c o).statusColor = "yellow") ∧
    ((cloudMissedCritical s c = false ∧ 45 ≤ cloudTotalScore s c) →
      (calc_cloud_vulnerability s c o).status = "Elite (Pre-approved)" ∧
      (calc_cloud_vulnerability s c o).statusColor = "green") := by
  refine ⟨cloud_missed_eq s c o, ?_, ?_, ?_, ?_, ?_⟩
  · simp [cloudMissedCritical, List.any_eq_true]
  · intro h
    unfold calc_cloud_vulnerability
    rw [if_pos h]
    exact ⟨rfl, rfl⟩
  · rintro ⟨hmc, h15, h30⟩
    have hn1 : ¬(cloudMissedCritical s c = true ∨ cloudTotalScore s c < 15) := by
      rintro (h | h)
      · rw [hmc] at h
        exact absurd h (by simp)
      · linarith
    unfold calc_cloud_vulnerability
    rw [if_neg hn1, if_pos h30]
    exact ⟨rfl, rfl⟩
  · rintro ⟨hmc, h30, h45⟩
    have hn1 : ¬(cloudMissedCritical s c = true ∨ cloudTotalScore s c < 15) := by
      rintro (h | h)
      · rw [hmc] at h
        exact absurd h (by simp)
      · linarith
    have hn2 : ¬(cloudTotalScore s c < 30) := by linarith
    unfold calc_cloud_vulnerability
    rw [if_neg hn1, if_neg hn2, if_pos h45]
    exact ⟨rfl, rfl⟩
  · rintro ⟨hmc, h45⟩
    have hn1 : ¬(cloudMissedCritical s c = true ∨ cloudTotalScore s c < 15) := by
      rintro (h | h)
      · rw [hmc] at h
        exact absurd h (by simp)
      · linarith
    have hn2 : ¬(cloudTotalScore s c < 30) := by linarith
    have hn3 : ¬(cloudTotalScore s c < 45) := by linarith
    unfold calc_cloud_vulnerability
    rw [if_neg hn1, if_neg hn2, if_neg hn3]
    exact ⟨rfl, rfl⟩

/-- Witness for C3 at concrete inputs: a missed Critical criterion forces
REJECT even with total_score = 55; total_score exactly 45 with no missed
Critical criterion is Elite. -/
theorem cloud_status_priority_witness :
    (calc_cloud_vulnerability [(1, 5), (2, 0)]
      [⟨1, 55, none⟩, ⟨2, 10, some "Critical"⟩] none).status = "REJECT (Critical Risk)" ∧
    (calc_cloud_vulnerability [(1, 5)] [⟨1, 45, none⟩] none).status =
      "Elite (Pre-approved)" := by
  constructor
  · exact ((cloud_status_priority [(1, 5), (2, 0)]
      [⟨1, 55, none⟩, ⟨2, 10, some "Critical"⟩] none).2.2.1 (Or.inl (by decide))).1
  · exact ((cloud_status_priority [(1, 5)] [⟨1, 45, none⟩] none).2.2.2.2.2
      ⟨by decide, by norm_num [cloudTotalScore, scoreGet]⟩).1

theorem questionWeight_ge_one (q : Question) : 1 ≤ questionWeight q := by
  unfold questionWeight
  split_ifs <;> norm_num

theorem applyFloorsQ_noop (o : Option Osint) (v : ℚ)
    (hfl : ∀ x, o = some x →
      ¬(x.ssl = some "F" ∨ x.ssl = some "Expired") ∧ x.dmarc ≠ some false) :
    applyFloorsQ o v = v := by
  cases o with
  | none => rfl
  | some x =>
    obtain ⟨hssl, hdm⟩ := hfl x rfl
    rw [applyFloorsQ_some, if_neg hdm, if_neg hssl]

/-- Claim C4: for every non-empty answers map and questions list with at
least one answered (non-null) question id, and no OSINT floor applicable,
`calc_vulnerability` returns the weighted mean of normalized contributions
(6-a)/5 per answered question, weighted 3 for "Critical", 2 for "High",
else 1, scaled to 0-100 and rounded; in particular if every answered value
is 5 the result is 20. -/
theorem calc_vulnerability_weighted_mean (a : List (Nat × Option ℤ)) (qs : List Question)
    (o : Option Osint) (ha : a ≠ [])
    (hmatch : ∃ q ∈ qs, ∃ v : ℤ, lookupAnswer a q.id = some (some v))
    (hfl : ∀ x, o = some x →
      ¬(x.ssl = some "F" ∨ x.ssl = some "Expired") ∧ x.dmarc ≠ some false) :
    calc_vulnerability a qs o =
      pyRound ((qs.map (fun q =>
          match lookupAnswer a q.id with
          | some (some v) => (6 - (v : ℚ)) / 5 * questionWeight q
          | _ => 0)).sum /
        (qs.map (fun q =>
          match lookupAnswer a q.id with
          | some (some _) => questionWeight q
          | _ => 0)).sum * 100) ∧
    ((∀ q ∈ qs, ∀ v : ℤ, lookupAnswer a q.id = some (some v) → v = 5) →
      calc_vulnerability a qs o = 20) := by
  have htw : 0 < totalWeight a qs := by
    obtain ⟨q, hq, v, hlv⟩ := hmatch
    have hnn : ∀ x ∈ (qs.map (fun q =>
        match lookupAnswer a q.id with
        | some (some _) => questionWeight q
        | _ => 0)), 0 ≤ x := by
      intro x hx
      simp only [List.mem_map] at hx
      obtain ⟨q', _, rfl⟩ := hx
      cases lookupAnswer a q'.id with
      | none => simp
      | some ov =>
        cases ov with
        | none => simp
        | some _ =>
          have := questionWeight_ge_one q'
          simp only
          linarith
    have hmem : (match lookupAnswer a q.id with
        | some (some _) => questionWeight q
        | _ => 0) ∈ (qs.map (fun q =>
          match lookupAnswer a q.id with
          | some (some _) => questionWeight q
          | _ => 0)) := List.mem_map_of_mem _ hq
    have hle := List.single_le_sum hnn _ hmem
    rw [hlv] at hle
    have h1 := questionWeight_ge_one q
    unfold totalWeight
    linarith
  have hmain : calc_vulnerability a qs o =
      pyRound (weightedScore a qs / totalWeight a qs * 100) := by
    unfold calc_vulnerability
    rw [if_neg ha, if_neg (ne_of_gt htw), applyFloorsQ_noop o _ hfl]
  constructor
  · exact hmain
  · intro h5
    have key : ∀ (l : List Question),
        (∀ q ∈ l, ∀ v : ℤ, lookupAnswer a q.id = some (some v) → v = 5) →
        weightedScore a l = totalWeight a l / 5 := by
      intro l
      induction l with
      | nil =>
        intro _
        simp [weightedScore, totalWeight]
      | cons q t ih =>
        intro h5l
        have ht := ih (fun q' hq' => h5l q' (List.mem_cons_of_mem _ hq'))
        unfold weightedScore totalWeight at ht ⊢
        rw [List.map_cons, List.sum_cons, List.map_cons, List.sum_cons, ht]
        cases hl : lookupAnswer a q.id with
        | none => ring
        | some ov =>
          cases ov with
          | none => ring
          | some v =>
            have hv5 := h5l q (List.mem_cons_self q t) v hl
            subst hv5
            unfold normalized
            norm_num
            ring
    rw [hmain, key qs h5]
    have : totalWeight a qs / 5 / totalWeight a qs * 100 = 20 := by
      field_simp
      ring
    rw [this]
    have h20 : ((20 : ℤ) : ℚ) = 20 := by norm_num
    rw [← h20, pyRound_intCast]

/-- Witness for C4 at a concrete input: two questions both answered 5 give
exactly 20. -/
theorem calc_vulnerability_weighted_mean_witness :
    calc_vulnerability [(1, some 5), (2, some 5)]
      [⟨1, some "Critical"⟩, ⟨2, none⟩] none = 20 := by
  refine (calc_vulnerability_weighted_mean [(1, some 5), (2, some 5)]
    [⟨1, some "Critical"⟩, ⟨2, none⟩] none (by simp) ?_ (by simp)).2 ?_
  · exact ⟨⟨1, some "Critical"⟩, by simp, 5, by decide⟩
  · intro q hq v hlv
    fin_cases hq <;> simp [lookupAnswer] at hlv <;> omega

theorem cloud_maxScore_eq (s : List (Nat × ℤ)) (c : List Criterion) (o : Option Osint) :
    (calc_cloud_vulnerability s c o).maxScore = 55 := by
  unfold calc_cloud_vulnerability
  split_ifs <;> rfl

theorem scoreGet_cases (s : List (Nat × ℤ)) (cid : Nat) :
    scoreGet s cid = none ∨ ∃ v, scoreGet s cid = some v ∧ ∃ p ∈ s, p.2 = v := by
  unfold scoreGet
  cases hf : s.find? (fun p => p.1 == cid) with
  | none => exact Or.inl rfl
  | some p => exact Or.inr ⟨p.2, rfl, p, List.mem_of_find?_eq_some hf, rfl⟩

theorem applyFloorsZ_bounds (o : Option Osint) (v : ℤ) (h0 : 0 ≤ v) (h100 : v ≤ 100) :
    0 ≤ applyFloorsZ o v ∧ applyFloorsZ o v ≤ 100 := by
  cases o with
  | none => exact ⟨h0, h100⟩
  | some x =>
    rw [applyFloorsZ_some]
    split_ifs <;> constructor <;> (try simp only [le_max_iff, max_le_iff]) <;> omega

/-- Counterexample to C1 as stated: with scores values in 0-5 and
non-negative criteria points, the result can leave both claimed ranges,
because `maxScore = 55` is hardcoded. A single criterion worth 100 points
answered at maturity 5 yields score = 100 > 55 and
vulnerability = round((1 - 100/55)*100) = -82 < 0. -/
theorem cloud_bounds_counterexample :
    (∀ p ∈ [((1 : Nat), (5 : ℤ))], 0 ≤ p.2 ∧ p.2 ≤ 5) ∧
    (∀ cr ∈ [Criterion.mk 1 100 none], 0 ≤ cr.points) ∧
    ¬(0 ≤ (calc_cloud_vulnerability [(1, 5)] [Criterion.mk 1 100 none] none).score ∧
      (calc_cloud_vulnerability [(1, 5)] [Criterion.mk 1 100 none] none).score ≤ 55 ∧
      0 ≤ (calc_cloud_vulnerability [(1, 5)] [Criterion.mk 1 100 none] none).vulnerability ∧
      (calc_cloud_vulnerability [(1, 5)] [Criterion.mk 1 100 none] none).vulnerability ≤ 100) := by
  have hts : cloudTotalScore [(1, 5)] [Criterion.mk 1 100 none] = 100 := by
    norm_num [cloudTotalScore, scoreGet]
  have hscore : (calc_cloud_vulnerability [(1, 5)] [Criterion.mk 1 100 none] none).score = 100 := by
    rw [cloud_score_eq, hts]
    norm_num [pyRound]
  have hvuln : (calc_cloud_vulnerability [(1, 5)]
      [Criterion.mk 1 100 none] none).vulnerability = -82 := by
    rw [cloud_vulnerability_eq, applyFloorsZ_none]
    unfold cloudBaseVuln
    rw [if_pos (by norm_num), hts]
    norm_num [pyRound]
  refine ⟨by norm_num, by norm_num, ?_⟩
  rw [hscore, hvuln]
  norm_num

/-- Claim C1 (amended): for every scores map with values in 0-5 and every
criteria list with non-negative points whose points total at most the
hardcoded `maxScore = 55`, `calc_cloud_vulnerability` returns a score in
[0, maxScore] and a vulnerability in [0, 100]. (The unrestricted claim is
false: `maxScore` is not derived from the criteria, so a criteria list
with more than 55 total points escapes both ranges — see the
counterexample.) -/
theorem cloud_bounds_amended (s : List (Nat × ℤ)) (c : List Criterion) (o : Option Osint)
    (hs : ∀ p ∈ s, 0 ≤ p.2 ∧ p.2 ≤ 5)
    (hp : ∀ cr ∈ c, 0 ≤ cr.points)
    (hsum : (c.map Criterion.points).sum ≤ 55) :
    0 ≤ (calc_cloud_vulnerability s c o).score ∧
    (calc_cloud_vulnerability s c o).score ≤ (calc_cloud_vulnerability s c o).maxScore ∧
    0 ≤ (calc_cloud_vulnerability s c o).vulnerability ∧
    (calc_cloud_vulnerability s c o).vulnerability ≤ 100 := by
  have hm : ∀ cid, (0 : ℚ) ≤ (((scoreGet s cid).getD 0 : ℤ) : ℚ) ∧
      (((scoreGet s cid).getD 0 : ℤ) : ℚ) ≤ 5 := by
    intro cid
    rcases scoreGet_cases s cid with h | ⟨v, hv, p, hps, hpv⟩
    · rw [h]
      norm_num
    · rw [hv]
      obtain ⟨h1, h2⟩ := hs p hps
      rw [hpv] at h1 h2
      constructor
      · simpa using h1
      · simp only [Option.getD_some]
        exact_mod_cast h2
  have hts0 : 0 ≤ cloudTotalScore s c := by
    unfold cloudTotalScore
    apply List.sum_nonneg
    intro x hx
    simp only [List.mem_map] at hx
    obtain ⟨cr, hcr, rfl⟩ := hx
    have := (hm cr.id).1
    have := hp cr hcr
    positivity
  have htsle : cloudTotalScore s c ≤ (c.map Criterion.points).sum := by
    unfold cloudTotalScore
    apply List.sum_le_sum
    intro cr hcr
    have h1 := (hm cr.id).1
    have h2 := (hm cr.id).2
    have h3 := hp cr hcr
    have hdiv : (((scoreGet s cr.id).getD 0 : ℤ) : ℚ) / 5 ≤ 1 := by
      rw [div_le_one (by norm_num)]
      linarith
    calc (((scoreGet s cr.id).getD 0 : ℤ) : ℚ) / 5 * cr.points
        ≤ 1 * cr.points := by
          apply mul_le_mul_of_nonneg_right hdiv h3
      _ = cr.points := one_mul _
  have hts55 : cloudTotalScore s c ≤ 55 := le_trans htsle hsum
  have hbase : 0 ≤ cloudBaseVuln s c ∧ cloudBaseVuln s c ≤ 100 := by
    unfold cloudBaseVuln
    rw [if_pos (by norm_num)]
    have harg0 : (0 : ℚ) ≤ (1 - cloudTotalScore s c / 55) * 100 := by
      have : cloudTotalScore s c / 55 ≤ 1 := by
        rw [div_le_one (by norm_num)]
        exact hts55
      nlinarith
    have harg100 : (1 - cloudTotalScore s c / 55) * 100 ≤ 100 := by
      have : 0 ≤ cloudTotalScore s c / 55 := by positivity
      nlinarith
    constructor
    · exact int_le_pyRound (by exact_mod_cast harg0)
    · exact pyRound_le_int (by exact_mod_cast harg100)
  refine ⟨?_, ?_, ?_, ?_⟩
  · rw [cloud_score_eq]
    exact int_le_pyRound (by exact_mod_cast hts0)
  · rw [cloud_score_eq, cloud_maxScore_eq]
    exact pyRound_le_int (by exact_mod_cast hts55)
  · rw [cloud_vulnerability_eq]
    exact (applyFloorsZ_bounds o _ hbase.1 hbase.2).1
  · rw [cloud_vulnerability_eq]
    exact (applyFloorsZ_bounds o _ hbase.1 hbase.2).2

/-- Witness for the amended C1 at a concrete input: one 55-point criterion
answered at maturity 4 with an ssl floor applied stays within both
ranges. -/
theorem cloud_bounds_amended_witness :
    0 ≤ (calc_cloud_vulnerability [(1, 4)] [Criterion.mk 1 55 none]
      (some ⟨none, some "F", none⟩)).score ∧
    (calc_cloud_vulnerability [(1, 4)] [Criterion.mk 1 55 none]
        (some ⟨none, some "F", none⟩)).score ≤
      (calc_cloud_vulnerability [(1, 4)] [Criterion.mk 1 55 none]
        (some ⟨none, some "F", none⟩)).maxScore ∧
    0 ≤ (calc_cloud_vulnerability [(1, 4)] [Criterion.mk 1 55 none]
      (some ⟨none, some "F", none⟩)).vulnerability ∧
    (calc_cloud_vulnerability [(1, 4)] [Criterion.mk 1 55 none]
        (some ⟨none, some "F", none⟩)).vulnerability ≤ 100 :=
  cloud_bounds_amended [(1, 4)] [Criterion.mk 1 55 none]
    (some ⟨none, some "F", none⟩)
    (by norm_num) (by norm_num) (by norm_num)
